import Mathlib

/-!
Verification development for the AR-Nav repository.

The repository's frontend contains placeholder routing utilities
(`aiRouteOptimizer.js`, `AlertsPage.jsx`, `ThreatResponsiveRouting.js`);
its specification additionally describes a deterministic safety-aware
route-planning core (GeoIndex / SafetyScorer / RoutePlanner / RouteMonitor)
that has no implementation under the sources.  Functions present in the
sources are embedded directly from the JavaScript; the planning core is
modelled from the specification text, with each such definition marked
`Modelled from the spec:` in its doc comment.  JavaScript's `Math.random()`
is modelled as an explicit stream of rationals in `[0,1)` supplied as an
argument, and `async` API calls are modelled by passing the call's result
(success payload or rejection) as an `Except` argument.
-/

namespace ARNav

/-- Modelled from the spec: a Coordinate is an immutable (latitude, longitude)
pair in degrees.  Degrees are represented as rationals. -/
structure Coordinate where
  lat : ℚ
  lng : ℚ
deriving DecidableEq, Repr

/-- Modelled from the spec: threat severity enum low/medium/high. -/
inductive Severity
  | low
  | medium
  | high
deriving DecidableEq, Repr

/-- Modelled from the spec: numeric rank of a severity, used only to state
the order low < medium < high. -/
def sevRank : Severity → ℕ
  | .low => 0
  | .medium => 1
  | .high => 2

/-- Modelled from the spec: severity weights used by the SafetyScorer,
low=1, medium=3, high=8. -/
def severityWeight : Severity → ℚ
  | .low => 1
  | .medium => 3
  | .high => 8

/-- Modelled from the spec: a ThreatReport carries an id, a Coordinate and a
severity.  (Category, reporter and timestamp do not enter scoring and are
omitted; TTL expiry is modelled by scoring only the supplied list of
non-expired threats.) -/
structure ThreatReport where
  tid : ℕ
  pos : Coordinate
  severity : Severity
deriving DecidableEq, Repr

/-- Modelled from the spec: a TerrainCell with traversal cost, visibility
exposure in [0,1] and cover availability in [0,1]. -/
structure TerrainCell where
  baseTraversalCost : ℚ
  visibilityExposure : ℚ
  coverAvailability : ℚ
deriving DecidableEq, Repr

/-- Modelled from the spec: the tunable scoring configuration.  The base
distance metric `d` (haversine in the spec, kept abstract here because its
trigonometry has no exact rational form), the threat-to-segment distance
`segDist`, the safety-margin radius, the safety constant `k`, the terrain
weights, and the nearest-cell terrain lookup `terrainAt` (total: the spec's
`OutOfCoverageArea` fallback to a default cell is folded into the lookup). -/
structure ScoringParams where
  d : Coordinate → Coordinate → ℚ
  segDist : Coordinate → Coordinate → Coordinate → ℚ
  margin : ℚ
  k : ℚ
  wVis : ℚ
  wCov : ℚ
  snapTol : ℚ
  terrainAt : Coordinate → TerrainCell

/-- Modelled from the spec: the contribution of one threat at distance `dd`
from the segment: `severityWeight(severity) * (1 - dd/margin)` within the
margin, with linear falloff, and exactly zero beyond the margin. -/
def threatContribution (margin : ℚ) (sev : Severity) (dd : ℚ) : ℚ :=
  if dd ≤ margin then severityWeight sev * (1 - dd / margin) else 0

/-- Modelled from the spec: threatPenalty is the decayed sum over the nearby
threats of their contributions to the segment (from, to). -/
def threatPenalty (P : ScoringParams) (threats : List ThreatReport)
    (f t : Coordinate) : ℚ :=
  (threats.map
    (fun th => threatContribution P.margin th.severity (P.segDist th.pos f t))).sum

/-- Modelled from the spec: terrainPenalty is a weighted sum of
visibilityExposure and inverse coverAvailability for the cells along the
segment; the cells along a segment are modelled as its two endpoint cells. -/
def terrainPenalty (P : ScoringParams) (f t : Coordinate) : ℚ :=
  ([P.terrainAt f, P.terrainAt t].map
    (fun c => P.wVis * c.visibilityExposure + P.wCov * (1 - c.coverAvailability))).sum

/-- Modelled from the spec: result of scoring one segment. -/
structure SegmentScore where
  cost : ℚ
  safetyContribution : ℚ
deriving DecidableEq, Repr

/-- Modelled from the spec: `scoreSegment` returns
`cost = baseDistance(from,to) * (1 + terrainPenalty) * (1 + threatPenalty)`
and `safetyContribution = 100 - min(100, threatPenalty * k)`.  It is a plain
function of the scoring parameters, the current threat list and the two
coordinates; it has no other state. -/
def scoreSegment (P : ScoringParams) (threats : List ThreatReport)
    (f t : Coordinate) : SegmentScore :=
  { cost := P.d f t * (1 + terrainPenalty P f t) * (1 + threatPenalty P threats f t)
    safetyContribution := 100 - min 100 (threatPenalty P threats f t * P.k) }

/-- Consecutive segments of a path. -/
def pathSegments : List Coordinate → List (Coordinate × Coordinate)
  | [] => []
  | [_] => []
  | a :: b :: rest => (a, b) :: pathSegments (b :: rest)

/-- Modelled from the spec: the route-level safety score is the minimum
segment safetyContribution along the path (100 for a path with no segment). -/
def routeSafetyScore (P : ScoringParams) (threats : List ThreatReport)
    (path : List Coordinate) : ℚ :=
  ((pathSegments path).map
    (fun s => (scoreSegment P threats s.1 s.2).safetyContribution)).foldr min 100

/-- Modelled from the spec: total scored cost of a path, the sum of its
segment costs. -/
def pathCost (P : ScoringParams) (threats : List ThreatReport) :
    List Coordinate → ℚ
  | [] => 0
  | [_] => 0
  | a :: b :: rest => (scoreSegment P threats a b).cost + pathCost P threats (b :: rest)

/-- Modelled from the spec: the A* heuristic used by the RoutePlanner, the
base-metric distance from a candidate node to the goal coordinate. -/
def heuristic (P : ScoringParams) (goal n : Coordinate) : ℚ :=
  P.d n goal

/-- Modelled from the spec: a static graph of discretized waypoints with an
adjacency list of (neighbor, baseDistance) pairs; topology is static, edge
costs are recomputed from threats and terrain. -/
structure Graph where
  nodes : List (ℕ × Coordinate)
  adj : List (ℕ × ℕ × ℚ)
deriving Repr

/-- Coordinate of a graph node, if the node id exists. -/
def nodeCoord (G : Graph) (i : ℕ) : Option Coordinate :=
  (G.nodes.find? (fun p => p.1 == i)).map Prod.snd

/-- Outgoing edges of a node as (neighbor id, base distance). -/
def neighbors (G : Graph) (i : ℕ) : List (ℕ × ℚ) :=
  (G.adj.filter (fun e => e.1 == i)).map (fun e => (e.2.1, e.2.2))

/-- Modelled from the spec: route lifecycle states. -/
inductive RStatus
  | active
  | superseded
  | completed
  | cancelled
deriving DecidableEq, Repr

/-- Modelled from the spec: a Route with its path, totals, lifecycle status,
owning journey and the weak back-reference to the route it superseded. -/
structure Route where
  rid : ℕ
  journey : ℕ
  path : List Coordinate
  totalDistance : ℚ
  safetyScore : ℚ
  status : RStatus
  supersedes : Option ℕ
deriving DecidableEq, Repr

/-- Modelled from the spec: the RoutePlanner error taxonomy. -/
inductive PlanError
  | invalidCoordinate
  | unreachableLocation
  | noPathFound
deriving DecidableEq, Repr

/-- Modelled from the spec: a coordinate is valid when its latitude is in
[-90, 90] and its longitude in [-180, 180]. -/
def validCoordinate (c : Coordinate) : Bool :=
  -90 ≤ c.lat && c.lat ≤ 90 && -180 ≤ c.lng && c.lng ≤ 180

/-- Search node of the A* loop: node id, its coordinate, accumulated cost g,
priority f = g + heuristic, accumulated threat penalty for the safety-first
tie-break, and the reversed coordinate path taken so far. -/
structure SNode where
  nid : ℕ
  coord : Coordinate
  g : ℚ
  f : ℚ
  tAcc : ℚ
  pathRev : List Coordinate
deriving Repr

/-- Modelled from the spec: frontier ordering — lower f first, ties broken by
lower accumulated threat penalty, then by lower node id for determinism. -/
def nodeBefore (a b : SNode) : Bool :=
  a.f < b.f || (a.f == b.f && (a.tAcc < b.tAcc || (a.tAcc == b.tAcc && a.nid < b.nid)))

/-- Extract the frontier entry that comes first under `nodeBefore`,
returning it together with the remaining entries. -/
def pickMin : SNode → List SNode → SNode × List SNode
  | best, [] => (best, [])
  | best, x :: xs =>
      if nodeBefore x best then
        let r := pickMin x xs
        (r.1, best :: r.2)
      else
        let r := pickMin best xs
        (r.1, x :: r.2)

/-- Modelled from the spec: the A* main loop over graph nodes.  Edge weight is
`scoreSegment(...).cost`; expansion is fuelled so the function is total. -/
def astarLoop (P : ScoringParams) (G : Graph) (threats : List ThreatReport)
    (goalCoord : Coordinate) (goalNid : ℕ) :
    ℕ → List SNode → List ℕ → Option SNode
  | 0, _, _ => none
  | _, [], _ => none
  | fuel + 1, x :: xs, closed =>
      let pm := pickMin x xs
      let cur := pm.1
      let rest := pm.2
      if cur.nid == goalNid then some cur
      else if closed.contains cur.nid then astarLoop P G threats goalCoord goalNid fuel rest closed
      else
        let succs := (neighbors G cur.nid).filterMap (fun nb =>
          match nodeCoord G nb.1 with
          | none => none
          | some c =>
              if closed.contains nb.1 then none
              else
                let seg := scoreSegment P threats cur.coord c
                some { nid := nb.1, coord := c, g := cur.g + seg.cost,
                       f := cur.g + seg.cost + heuristic P goalCoord c,
                       tAcc := cur.tAcc + threatPenalty P threats cur.coord c,
                       pathRev := c :: cur.pathRev })
        astarLoop P G threats goalCoord goalNid fuel (rest ++ succs) (cur.nid :: closed)

/-- Modelled from the spec: snap a requested coordinate to the nearest graph
node within the snap tolerance (ties broken by lower node id), or none when
no node is close enough. -/
def snapNode (P : ScoringParams) (G : Graph) (c : Coordinate) :
    Option (ℕ × Coordinate) :=
  G.nodes.foldl (fun acc p =>
    if P.d c p.2 ≤ P.snapTol then
      match acc with
      | none => some p
      | some q =>
          if P.d c p.2 < P.d c q.2 || (P.d c p.2 == P.d c q.2 && p.1 < q.1) then some p
          else some q
    else acc) none

/-- Modelled from the spec: `planRoute(start, end, profile)`.  Malformed
coordinates are rejected with `InvalidCoordinate` before anything else
(the error taxonomy requires rejection before any state change); start = end
returns a zero-length Route with safetyScore 100; endpoints that snap to no
graph node fail with `UnreachableLocation`; an exhausted search fails with
`NoPathFound`.  Otherwise an A* search produces the path and the route-level
safety score is derived from the minimum segment contribution. -/
def planRoute (P : ScoringParams) (G : Graph) (threats : List ThreatReport)
    (s e : Coordinate) : Except PlanError Route :=
  if !(validCoordinate s && validCoordinate e) then .error .invalidCoordinate
  else if s = e then
    .ok { rid := 0, journey := 0, path := [s], totalDistance := 0,
          safetyScore := 100, status := .active, supersedes := none }
  else
    match snapNode P G s, snapNode P G e with
    | none, _ => .error .unreachableLocation
    | some _, none => .error .unreachableLocation
    | some sn, some en =>
        let start : SNode :=
          { nid := sn.1, coord := sn.2, g := 0, f := heuristic P en.2 sn.2,
            tAcc := 0, pathRev := [sn.2] }
        match astarLoop P G threats en.2 en.1 (G.nodes.length + G.adj.length + 1)
            [start] [] with
        | none => .error .noPathFound
        | some goal =>
            .ok { rid := 0, journey := 0, path := goal.pathRev.reverse,
                  totalDistance := goal.g,
                  safetyScore := routeSafetyScore P threats goal.pathRev.reverse,
                  status := .active, supersedes := none }

/-- Modelled from the spec: RouteMonitor's owned state — the collection of
routes (append-only history, active ones included) and a fresh-id counter. -/
structure MonitorState where
  routes : List Route
  nextId : ℕ
deriving Repr

/-- Modelled from the spec: the external and internal events that drive the
per-route state machine: registration of a freshly planned route, a
successful replan superseding an active route, and the external
completed/cancelled signals. -/
inductive MEvent
  | register (journey : ℕ) (path : List Coordinate) (dist score : ℚ)
  | replanSucceeded (rid : ℕ) (path : List Coordinate) (dist score : ℚ)
  | complete (rid : ℕ)
  | cancel (rid : ℕ)

/-- Set a route's lifecycle status. -/
def setStatus (s : RStatus) (r : Route) : Route :=
  { r with status := s }

/-- Whether some active route for the journey is already tracked. -/
def hasActiveJourney (st : MonitorState) (j : ℕ) : Bool :=
  st.routes.any (fun r => r.journey == j && r.status == RStatus.active)

/-- The tracked active route with the given id, if any. -/
def findActive (st : MonitorState) (i : ℕ) : Option Route :=
  st.routes.find? (fun r => r.rid == i && r.status == RStatus.active)

/-- Modelled from the spec: RouteMonitor's transition function.  Only active
routes ever change status: `active → superseded` on a successful replan
(the superseding route becomes the journey's active one, with the weak
back-reference set), `active → completed` and `active → cancelled` on the
external signals; `superseded`, `completed` and `cancelled` are terminal. -/
def step (st : MonitorState) (e : MEvent) : MonitorState :=
  match e with
  | .register j p dist sc =>
      if hasActiveJourney st j then st
      else
        { routes := st.routes ++
            [{ rid := st.nextId, journey := j, path := p, totalDistance := dist,
               safetyScore := sc, status := .active, supersedes := none }],
          nextId := st.nextId + 1 }
  | .replanSucceeded i p dist sc =>
      match findActive st i with
      | none => st
      | some old =>
          { routes := (st.routes.map (fun r =>
                if r.rid == i && r.status == RStatus.active then setStatus .superseded r
                else r)) ++
              [{ rid := st.nextId, journey := old.journey, path := p,
                 totalDistance := dist, safetyScore := sc, status := .active,
                 supersedes := some i }],
            nextId := st.nextId + 1 }
  | .complete i =>
      { st with routes := st.routes.map (fun r =>
          if r.rid == i && r.status == RStatus.active then setStatus .completed r
          else r) }
  | .cancel i =>
      { st with routes := st.routes.map (fun r =>
          if r.rid == i && r.status == RStatus.active then setStatus .cancelled r
          else r) }

/-- Number of active routes tracked for a journey. -/
def activeCount (st : MonitorState) (j : ℕ) : ℕ :=
  (st.routes.filter (fun r => r.journey == j && r.status == RStatus.active)).length

/-- Severity comparison: `sevAtLeast s t` holds when s is at least as severe
as t. -/
def sevAtLeast (s t : Severity) : Bool :=
  sevRank t ≤ sevRank s

/-- Modelled from the spec: whether a threat position lies within the safety
margin of some point of a route path (the minimum point distance is within
the margin). -/
def nearPath (d : Coordinate → Coordinate → ℚ) (margin : ℚ) (pos : Coordinate)
    (path : List Coordinate) : Bool :=
  path.any (fun p => d pos p ≤ margin)

/-- Modelled from the spec: on threat ingestion a route is marked dirty
exactly when it is active, the threat's severity is at least medium, and the
threat lies within the safety margin of the route's path. -/
def routeDirty (d : Coordinate → Coordinate → ℚ) (margin : ℚ)
    (th : ThreatReport) (r : Route) : Bool :=
  r.status == RStatus.active && sevAtLeast th.severity .medium &&
    nearPath d margin th.pos r.path

/-- Modelled from the spec: the ids RouteMonitor marks dirty for a newly
ingested threat. -/
def dirtyRoutes (d : Coordinate → Coordinate → ℚ) (margin : ℚ)
    (st : MonitorState) (th : ThreatReport) : List ℕ :=
  ((st.routes.filter (routeDirty d margin th)).map Route.rid)

/-- Modelled from the spec: RouteMonitor's reaction to an ingested threat.
Each dirty route is recomputed (`replan` yields the candidate path, distance
and safety score) and superseded only when the candidate improves the safety
score by more than the flap-avoidance delta; clean routes are untouched. -/
def processThreat (d : Coordinate → Coordinate → ℚ) (margin delta : ℚ)
    (replan : Route → List Coordinate × ℚ × ℚ) (st : MonitorState)
    (th : ThreatReport) : MonitorState :=
  (st.routes.filter (routeDirty d margin th)).foldl (fun acc r =>
    let c := replan r
    if r.safetyScore + delta < c.2.2 then
      step acc (.replanSucceeded r.rid c.1 c.2.1 c.2.2)
    else acc) st

/-!
Embeddings of the JavaScript sources.  `Math.random()` is an explicit stream
`rng : ℕ → ℚ` consumed in source order; a rejected API promise is the
`Except.error` case of the call-result argument.
-/

/-- A recommendation object returned by the backend `getRecommendations`
call, as consumed by `aiRouteOptimizer.js` (fields `id`, `type`, `message`). -/
structure Recommendation where
  id : String
  rtype : String
  message : String
deriving DecidableEq, Repr

/-- A route suggestion produced by `getOptimizedRouteSuggestions`. -/
structure RouteSuggestion where
  id : String
  sname : String
  description : String
  estimatedTime : ℤ
  safetyScore : ℤ
  trafficLevel : ℤ
deriving DecidableEq, Repr

/-- The `currentConditions` object of `getOptimizedRouteSuggestions`. -/
structure Conditions where
  weather : String
  trafficStatus : String
  safetyAlerts : ℕ
deriving DecidableEq, Repr

/-- The full return value of `getOptimizedRouteSuggestions`. -/
structure Suggestions where
  optimizedRoutes : List RouteSuggestion
  currentConditions : Conditions
deriving DecidableEq, Repr

/-- Embeds `getOptimizedRouteSuggestions` from
`frontend/src/utils/aiRouteOptimizer.js`.  On a successful
`getRecommendations()` call each recommendation is mapped to a suggestion
whose `estimatedTime`, `safetyScore` and `trafficLevel` consume three
successive `Math.random()` draws; on a rejected call the fixed fallback
object is returned.  The location and preference arguments are accepted but
(as in the source, where `routeData` is built and never used) do not affect
the result. -/
def getOptimizedRouteSuggestions (startLocation endLocation : String)
    (preferences : List (String × String))
    (recsResult : Except String (List Recommendation)) (rng : ℕ → ℚ) :
    Suggestions :=
  match recsResult with
  | .ok recs =>
      { optimizedRoutes := recs.enum.map (fun p =>
          { id := p.2.id,
            sname := p.2.rtype ++ " Route",
            description := p.2.message,
            estimatedTime := (rng (3 * p.1) * 30).floor + 15,
            safetyScore := (rng (3 * p.1 + 1) * 100).floor,
            trafficLevel := (rng (3 * p.1 + 2) * 3).floor }),
        currentConditions := { weather := "Sunny", trafficStatus := "Moderate",
                               safetyAlerts := recs.length } }
  | .error _ =>
      { optimizedRoutes :=
          [{ id := "fallback-1",
             sname := "Fallback Route 1",
             description := "API error - using fallback route",
             estimatedTime := 25,
             safetyScore := 85,
             trafficLevel := 1 }],
        currentConditions := { weather := "Unknown", trafficStatus := "Unknown",
                               safetyAlerts := 0 } }

/-- A route produced by `getSafetyFocusedRoutes`. -/
structure SafetyRoute where
  id : String
  sname : String
  description : String
  safetyScore : ℤ
  estimatedTime : ℤ
deriving DecidableEq, Repr

/-- Embeds `getSafetyFocusedRoutes` from
`frontend/src/utils/aiRouteOptimizer.js`.  On success each recommendation
maps to a route with `safetyScore = Math.floor(r*30)+70` and
`estimatedTime = Math.floor(r*20)+25` on two successive draws; on a rejected
call the fixed fallback list is returned. -/
def getSafetyFocusedRoutes (startLocation endLocation : String)
    (recsResult : Except String (List Recommendation)) (rng : ℕ → ℚ) :
    List SafetyRoute :=
  match recsResult with
  | .ok recs =>
      recs.enum.map (fun p =>
        { id := p.2.id,
          sname := "Safety Route: " ++ p.2.rtype,
          description := p.2.message,
          safetyScore := (rng (2 * p.1) * 30).floor + 70,
          estimatedTime := (rng (2 * p.1 + 1) * 20).floor + 25 })
  | .error _ =>
      [{ id := "safety-fallback",
         sname := "Safety Fallback Route",
         description := "API error - using fallback safety route",
         safetyScore := 80,
         estimatedTime := 30 }]

/-- An alert of `AlertsPage.jsx` (the optional `location` field is `none`
when the alert object has no such key). -/
structure Alert where
  id : ℕ
  atype : String
  title : String
  description : String
  severity : String
  timestamp : String
  location : Option String
  read : Bool
deriving DecidableEq, Repr

/-- Embeds `markAsRead` from `frontend/src/components/AlertsPage.jsx`:
`alerts.map(alert => alert.id === id ? { ...alert, read: true } : alert)`. -/
def markAsRead (i : ℕ) (alerts : List Alert) : List Alert :=
  alerts.map (fun a => if a.id = i then { a with read := true } else a)

/-!
Concrete instances used to exercise the definitions.
-/

/-- An exact rational metric used to instantiate the abstract base distance
in concrete evaluations. -/
def taxicab (a b : Coordinate) : ℚ :=
  |a.lat - b.lat| + |a.lng - b.lng|

/-- Threat-to-segment distance induced by `taxicab`: distance to the nearer
endpoint. -/
def segTaxicab (p f t : Coordinate) : ℚ :=
  min (taxicab p f) (taxicab p t)

/-- A uniform terrain cell. -/
def defaultCell : TerrainCell :=
  { baseTraversalCost := 1, visibilityExposure := 1 / 2, coverAvailability := 1 / 2 }

/-- A concrete scoring configuration. -/
def Pc : ScoringParams :=
  { d := taxicab, segDist := segTaxicab, margin := 1, k := 1, wVis := 1 / 2,
    wCov := 1 / 2, snapTol := 1, terrainAt := fun _ => defaultCell }

/-- A three-node line graph. -/
def Gc : Graph :=
  { nodes := [(0, { lat := 0, lng := 0 }), (1, { lat := 0, lng := 1 }),
              (2, { lat := 0, lng := 2 })],
    adj := [(0, 1, 1), (1, 2, 1), (1, 0, 1), (2, 1, 1)] }

/-- A concrete recommendation payload. -/
def recFast : Recommendation :=
  { id := "r1", rtype := "Fast", message := "m" }

/-- A random stream whose first call-worth of draws (indices 0..2) differs
from the next call's draws (indices 3..5). -/
def rngCE : ℕ → ℚ :=
  fun n => if n < 3 then 0 else 1 / 2

/-- The constant one-half random stream. -/
def halfStream : ℕ → ℚ :=
  fun _ => 1 / 2

theorem taxicab_nonneg (a b : Coordinate) : 0 ≤ taxicab a b := by
  unfold taxicab
  positivity

theorem taxicab_triangle (a b c : Coordinate) :
    taxicab a c ≤ taxicab a b + taxicab b c := by
  unfold taxicab
  have h1 := abs_sub_le a.lat b.lat c.lat
  have h2 := abs_sub_le a.lng b.lng c.lng
  linarith

theorem segTaxicab_nonneg (p f t : Coordinate) : 0 ≤ segTaxicab p f t :=
  le_min (taxicab_nonneg p f) (taxicab_nonneg p t)

/-!
Helper lemmas about the SafetyScorer.
-/

theorem rat_floor_eq_intFloor (q : ℚ) : Rat.floor q = ⌊q⌋ := by
  rw [Rat.floor_def', Rat.floor_def]

theorem severityWeight_pos : ∀ s : Severity, 0 < severityWeight s := by
  intro s
  cases s <;> norm_num [severityWeight]

theorem severityWeight_mono :
    ∀ a b : Severity, sevRank a ≤ sevRank b → severityWeight a ≤ severityWeight b := by
  intro a b h
  cases a <;> cases b <;> simp_all [sevRank, severityWeight] <;> norm_num

theorem threatContribution_nonneg (margin : ℚ) (sev : Severity) (dd : ℚ)
    (hm : 0 < margin) (hd : 0 ≤ dd) : 0 ≤ threatContribution margin sev dd := by
  unfold threatContribution
  split_ifs with h
  · apply mul_nonneg (le_of_lt (severityWeight_pos sev))
    have : dd / margin ≤ 1 := (div_le_one hm).2 h
    linarith
  · exact le_refl 0

theorem threatContribution_mono_sev (margin : ℚ) (a b : Severity) (dd : ℚ)
    (hm : 0 < margin) (hd : 0 ≤ dd) (hab : sevRank a ≤ sevRank b) :
    threatContribution margin a dd ≤ threatContribution margin b dd := by
  unfold threatContribution
  split_ifs with h
  · apply mul_le_mul_of_nonneg_right (severityWeight_mono a b hab)
    have : dd / margin ≤ 1 := (div_le_one hm).2 h
    linarith
  · exact le_refl 0

theorem threatPenalty_cons (P : ScoringParams) (th : ThreatReport)
    (threats : List ThreatReport) (f t : Coordinate) :
    threatPenalty P (th :: threats) f t =
      threatContribution P.margin th.severity (P.segDist th.pos f t) +
        threatPenalty P threats f t := by
  simp [threatPenalty]

theorem threatPenalty_nonneg (P : ScoringParams) (threats : List ThreatReport)
    (f t : Coordinate) (hm : 0 < P.margin)
    (hseg : ∀ p a b : Coordinate, 0 ≤ P.segDist p a b) :
    0 ≤ threatPenalty P threats f t := by
  induction threats with
  | nil => simp [threatPenalty]
  | cons th rest ih =>
      rw [threatPenalty_cons]
      have := threatContribution_nonneg P.margin th.severity (P.segDist th.pos f t)
        hm (hseg th.pos f t)
      linarith

theorem terrainPenalty_nonneg (P : ScoringParams) (f t : Coordinate)
    (hwv : 0 ≤ P.wVis) (hwc : 0 ≤ P.wCov)
    (hvis : ∀ c : Coordinate, 0 ≤ (P.terrainAt c).visibilityExposure)
    (hcov : ∀ c : Coordinate, (P.terrainAt c).coverAvailability ≤ 1) :
    0 ≤ terrainPenalty P f t := by
  unfold terrainPenalty
  have h1 := hvis f
  have h2 := hvis t
  have h3 := hcov f
  have h4 := hcov t
  have e1 : 0 ≤ P.wVis * (P.terrainAt f).visibilityExposure := mul_nonneg hwv h1
  have e2 : 0 ≤ P.wVis * (P.terrainAt t).visibilityExposure := mul_nonneg hwv h2
  have e3 : 0 ≤ P.wCov * (1 - (P.terrainAt f).coverAvailability) :=
    mul_nonneg hwc (by linarith)
  have e4 : 0 ≤ P.wCov * (1 - (P.terrainAt t).coverAvailability) :=
    mul_nonneg hwc (by linarith)
  simp [List.sum_cons]
  linarith

theorem safetyContribution_anti (k x y : ℚ) (hk : 0 ≤ k) (h : x ≤ y) :
    100 - min 100 (y * k) ≤ 100 - min 100 (x * k) := by
  have h1 : x * k ≤ y * k := mul_le_mul_of_nonneg_right h hk
  have h2 : min 100 (x * k) ≤ min 100 (y * k) := min_le_min (le_refl 100) h1
  linarith

theorem scoreSegment_safety_anti (P : ScoringParams) (t1 t2 : List ThreatReport)
    (f t : Coordinate) (hk : 0 ≤ P.k)
    (h : threatPenalty P t1 f t ≤ threatPenalty P t2 f t) :
    (scoreSegment P t2 f t).safetyContribution ≤
      (scoreSegment P t1 f t).safetyContribution := by
  simp only [scoreSegment]
  exact safetyContribution_anti P.k _ _ hk h

theorem routeSafetyScore_anti (P : ScoringParams) (t1 t2 : List ThreatReport)
    (hk : 0 ≤ P.k)
    (h : ∀ f t : Coordinate, threatPenalty P t1 f t ≤ threatPenalty P t2 f t)
    (path : List Coordinate) :
    routeSafetyScore P t2 path ≤ routeSafetyScore P t1 path := by
  unfold routeSafetyScore
  induction pathSegments path with
  | nil => simp
  | cons s rest ih =>
      simp only [List.map_cons, List.foldr_cons]
      exact min_le_min (scoreSegment_safety_anti P t1 t2 s.1 s.2 hk (h s.1 s.2)) ih

theorem threatPenalty_mono_sev (P : ScoringParams) (hm : 0 < P.margin)
    (hseg : ∀ p a b : Coordinate, 0 ≤ P.segDist p a b)
    (t1 t2 : List ThreatReport)
    (h : List.Forall₂
      (fun a b : ThreatReport => a.pos = b.pos ∧ sevRank a.severity ≤ sevRank b.severity)
      t1 t2)
    (f t : Coordinate) : threatPenalty P t1 f t ≤ threatPenalty P t2 f t := by
  induction h with
  | nil => exact le_refl _
  | @cons a b l1 l2 hab hrest ih =>
      rw [threatPenalty_cons, threatPenalty_cons]
      obtain ⟨hpos, hsev⟩ := hab
      rw [hpos]
      have := threatContribution_mono_sev P.margin a.severity b.severity
        (P.segDist b.pos f t) hm (hseg b.pos f t) hsev
      linarith

/-!
Claim theorems.
-/

/-- C2: for every segment (from, to), `scoreSegment` returns
`cost = baseDistance(from,to) * (1 + terrainPenalty) * (1 + threatPenalty)`,
where `threatPenalty` is the sum over the threats of
`severityWeight(severity) * (1 - distance/margin)` for threats within the
safety margin, with linear falloff, exactly zero beyond the margin, and
severityWeight low=1, medium=3, high=8. -/
theorem scoreSegment_formula (P : ScoringParams) (threats : List ThreatReport)
    (f t : Coordinate) :
    (scoreSegment P threats f t).cost =
        P.d f t * (1 + terrainPenalty P f t) * (1 + threatPenalty P threats f t) ∧
    threatPenalty P threats f t =
      (threats.map (fun th =>
        threatContribution P.margin th.severity (P.segDist th.pos f t))).sum ∧
    (∀ sev : Severity, ∀ dd : ℚ, P.margin < dd →
      threatContribution P.margin sev dd = 0) ∧
    (∀ sev : Severity, ∀ dd : ℚ, dd ≤ P.margin →
      threatContribution P.margin sev dd =
        severityWeight sev * (1 - dd / P.margin)) ∧
    severityWeight .low = 1 ∧ severityWeight .medium = 3 ∧ severityWeight .high = 8 := by
  refine ⟨rfl, rfl, ?_, ?_, rfl, rfl, rfl⟩
  · intro sev dd h
    simp [threatContribution, not_le.2 h]
  · intro sev dd h
    simp [threatContribution, h]

/-- C3: holding terrain fixed, a route's safetyScore never increases when a
threat is added, nor when the severity of an existing threat at the same
position is raised. -/
theorem routeSafetyScore_threat_monotone (P : ScoringParams)
    (hm : 0 < P.margin) (hk : 0 ≤ P.k)
    (hseg : ∀ p a b : Coordinate, 0 ≤ P.segDist p a b) :
    (∀ (threats : List ThreatReport) (th : ThreatReport) (path : List Coordinate),
      routeSafetyScore P (th :: threats) path ≤ routeSafetyScore P threats path) ∧
    (∀ (t1 t2 : List ThreatReport) (path : List Coordinate),
      List.Forall₂
        (fun a b : ThreatReport => a.pos = b.pos ∧ sevRank a.severity ≤ sevRank b.severity)
        t1 t2 →
      routeSafetyScore P t2 path ≤ routeSafetyScore P t1 path) := by
  constructor
  · intro threats th path
    apply routeSafetyScore_anti P threats (th :: threats) hk
    intro f t
    rw [threatPenalty_cons]
    have := threatContribution_nonneg P.margin th.severity (P.segDist th.pos f t)
      hm (hseg th.pos f t)
    linarith
  · intro t1 t2 path h
    exact routeSafetyScore_anti P t1 t2 hk (threatPenalty_mono_sev P hm hseg t1 t2 h) path

/-- C3 witness: adding a high-severity threat to a concrete single-segment
path does not increase its safety score. -/
theorem routeSafetyScore_threat_monotone_witness :
    routeSafetyScore Pc [{ tid := 7, pos := { lat := 0, lng := 1 }, severity := .high }]
        [{ lat := 0, lng := 0 }, { lat := 0, lng := 2 }] ≤
      routeSafetyScore Pc []
        [{ lat := 0, lng := 0 }, { lat := 0, lng := 2 }] :=
  (routeSafetyScore_threat_monotone Pc (by norm_num [Pc]) (by norm_num [Pc])
      (fun p a b => segTaxicab_nonneg p a b)).1
    [] { tid := 7, pos := { lat := 0, lng := 1 }, severity := .high }
    [{ lat := 0, lng := 0 }, { lat := 0, lng := 2 }]

theorem scoreSegment_cost_ge (P : ScoringParams) (threats : List ThreatReport)
    (f t : Coordinate) (hm : 0 < P.margin)
    (hseg : ∀ p a b : Coordinate, 0 ≤ P.segDist p a b)
    (hd0 : ∀ a b : Coordinate, 0 ≤ P.d a b)
    (hwv : 0 ≤ P.wVis) (hwc : 0 ≤ P.wCov)
    (hvis : ∀ c : Coordinate, 0 ≤ (P.terrainAt c).visibilityExposure)
    (hcov : ∀ c : Coordinate, (P.terrainAt c).coverAvailability ≤ 1) :
    P.d f t ≤ (scoreSegment P threats f t).cost := by
  have htp := terrainPenalty_nonneg P f t hwv hwc hvis hcov
  have hth := threatPenalty_nonneg P threats f t hm hseg
  have hd := hd0 f t
  simp only [scoreSegment]
  nlinarith [mul_nonneg hd htp, mul_nonneg hd hth,
    mul_nonneg (mul_nonneg hd htp) hth]

theorem dist_le_pathCost (P : ScoringParams) (threats : List ThreatReport)
    (hm : 0 < P.margin)
    (hseg : ∀ p a b : Coordinate, 0 ≤ P.segDist p a b)
    (hd0 : ∀ a b : Coordinate, 0 ≤ P.d a b)
    (hwv : 0 ≤ P.wVis) (hwc : 0 ≤ P.wCov)
    (hvis : ∀ c : Coordinate, 0 ≤ (P.terrainAt c).visibilityExposure)
    (hcov : ∀ c : Coordinate, (P.terrainAt c).coverAvailability ≤ 1)
    (hrefl : ∀ a : Coordinate, P.d a a = 0)
    (htri : ∀ a b c : Coordinate, P.d a c ≤ P.d a b + P.d b c) :
    ∀ (path : List Coordinate) (f e : Coordinate),
      path.head? = some f → path.getLast? = some e →
      P.d f e ≤ pathCost P threats path := by
  intro path
  induction path with
  | nil =>
      intro f e hf _
      simp at hf
  | cons a rest ih =>
      intro f e hf hl
      have haf : a = f := by simpa using hf
      subst haf
      cases rest with
      | nil =>
          have hae : a = e := by simpa using hl
          subst hae
          simp [pathCost, hrefl a]
      | cons b rest2 =>
          have hlast : (b :: rest2).getLast? = some e := by
            simpa [List.getLast?_cons_cons] using hl
          have ihb := ih b e (by simp) hlast
          have h1 := scoreSegment_cost_ge P threats a b hm hseg hd0 hwv hwc hvis hcov
          have htr := htri a b e
          simp only [pathCost]
          linarith

/-- C4: for every edge and threat/terrain state (with the spec's parameter
ranges), the cost produced by `scoreSegment` is at least the base distance,
and consequently the base-metric heuristic used by the planner's A* search
never overestimates the scored cost of any path to the goal (admissibility). -/
theorem scoreSegment_admissible (P : ScoringParams) (threats : List ThreatReport)
    (hm : 0 < P.margin)
    (hseg : ∀ p a b : Coordinate, 0 ≤ P.segDist p a b)
    (hd0 : ∀ a b : Coordinate, 0 ≤ P.d a b)
    (hwv : 0 ≤ P.wVis) (hwc : 0 ≤ P.wCov)
    (hvis : ∀ c : Coordinate, 0 ≤ (P.terrainAt c).visibilityExposure)
    (hcov : ∀ c : Coordinate, (P.terrainAt c).coverAvailability ≤ 1)
    (hrefl : ∀ a : Coordinate, P.d a a = 0)
    (htri : ∀ a b c : Coordinate, P.d a c ≤ P.d a b + P.d b c) :
    (∀ f t : Coordinate, P.d f t ≤ (scoreSegment P threats f t).cost) ∧
    (∀ (path : List Coordinate) (f e : Coordinate),
      path.head? = some f → path.getLast? = some e →
      heuristic P e f ≤ pathCost P threats path) := by
  constructor
  · intro f t
    exact scoreSegment_cost_ge P threats f t hm hseg hd0 hwv hwc hvis hcov
  · intro path f e hf hl
    exact dist_le_pathCost P threats hm hseg hd0 hwv hwc hvis hcov hrefl htri path f e hf hl

/-- C4 witness: at the concrete taxicab configuration, a concrete edge's cost
dominates its base distance and the heuristic from the start of a concrete
two-segment path is below that path's scored cost. -/
theorem scoreSegment_admissible_witness :
    Pc.d { lat := 0, lng := 0 } { lat := 0, lng := 1 } ≤
      (scoreSegment Pc [] { lat := 0, lng := 0 } { lat := 0, lng := 1 }).cost ∧
    heuristic Pc { lat := 0, lng := 2 } { lat := 0, lng := 0 } ≤
      pathCost Pc [] [{ lat := 0, lng := 0 }, { lat := 0, lng := 1 }, { lat := 0, lng := 2 }] := by
  have H := scoreSegment_admissible Pc [] (by norm_num [Pc])
    (fun p a b => segTaxicab_nonneg p a b)
    (fun a b => taxicab_nonneg a b)
    (by norm_num [Pc]) (by norm_num [Pc])
    (fun c => by norm_num [Pc, defaultCell])
    (fun c => by norm_num [Pc, defaultCell])
    (fun a => by simp [Pc, taxicab, sub_self])
    (fun a b c => taxicab_triangle a b c)
  exact ⟨H.1 { lat := 0, lng := 0 } { lat := 0, lng := 1 },
    H.2 [{ lat := 0, lng := 0 }, { lat := 0, lng := 1 }, { lat := 0, lng := 2 }]
      { lat := 0, lng := 0 } { lat := 0, lng := 2 } (by simp) (by simp [List.getLast?])⟩

/-- C1 counterexample: the source's `getOptimizedRouteSuggestions` is not
deterministic across two calls with identical arguments — the second call
reads later `Math.random()` draws (modelled by offsetting the stream by the
three draws the first call consumed) and reports a different safetyScore. -/
theorem getOptimizedRouteSuggestions_not_deterministic :
    (getOptimizedRouteSuggestions "a" "b" [] (.ok [recFast]) rngCE).optimizedRoutes.map
        RouteSuggestion.safetyScore ≠
      (getOptimizedRouteSuggestions "a" "b" [] (.ok [recFast])
          (fun n => rngCE (n + 3))).optimizedRoutes.map RouteSuggestion.safetyScore := by
  simp only [getOptimizedRouteSuggestions, recFast, rngCE, List.enum, List.enumFrom,
    List.map]
  norm_num [rat_floor_eq_intFloor]

/-- C1 (amended): the spec-modelled planner is deterministic — `planRoute`
and `scoreSegment` are functions of the scoring parameters, graph, current
threat state and endpoints alone, so two calls with identical inputs and no
intervening threat change return identical results (identical path and
safetyScore included). -/
theorem planRoute_deterministic (P P' : ScoringParams) (G G' : Graph)
    (threats threats' : List ThreatReport) (s s' e e' : Coordinate)
    (hP : P = P') (hG : G = G') (ht : threats = threats') (hs : s = s') (he : e = e') :
    planRoute P G threats s e = planRoute P' G' threats' s' e' ∧
    ∀ f t : Coordinate, scoreSegment P threats f t = scoreSegment P' threats' f t := by
  subst hP hG ht hs he
  exact ⟨rfl, fun _ _ => rfl⟩

/-- C1 witness: two identical concrete calls of the spec-modelled planner
agree. -/
theorem planRoute_deterministic_witness :
    planRoute Pc Gc [] { lat := 0, lng := 0 } { lat := 0, lng := 2 } =
      planRoute Pc Gc [] { lat := 0, lng := 0 } { lat := 0, lng := 2 } :=
  (planRoute_deterministic Pc Pc Gc Gc [] [] { lat := 0, lng := 0 }
    { lat := 0, lng := 0 } { lat := 0, lng := 2 } { lat := 0, lng := 2 }
    rfl rfl rfl rfl rfl).1

/-- C7 counterexample: `planRoute` rejects an out-of-range coordinate with
`InvalidCoordinate` even when start = end, so it does fail for some
coordinate `c`. -/
theorem planRoute_self_invalid_fails :
    planRoute Pc Gc [] { lat := 200, lng := 0 } { lat := 200, lng := 0 } =
      .error .invalidCoordinate := by
  rfl

/-- C7 (amended): for every coordinate `c` with in-range latitude and
longitude, `planRoute(c, c, profile)` does not fail: it returns a zero-length
Route whose safetyScore is exactly 100. -/
theorem planRoute_self (P : ScoringParams) (G : Graph)
    (threats : List ThreatReport) (c : Coordinate)
    (h : validCoordinate c = true) :
    planRoute P G threats c c =
      .ok { rid := 0, journey := 0, path := [c], totalDistance := 0,
            safetyScore := 100, status := .active, supersedes := none } := by
  simp [planRoute, h]

/-- C7 witness: a concrete in-range coordinate yields the zero-length route
with safetyScore 100. -/
theorem planRoute_self_witness :
    planRoute Pc Gc [] { lat := 0, lng := 0 } { lat := 0, lng := 0 } =
      .ok { rid := 0, journey := 0, path := [{ lat := 0, lng := 0 }],
            totalDistance := 0, safetyScore := 100, status := .active,
            supersedes := none } :=
  planRoute_self Pc Gc [] { lat := 0, lng := 0 } (by decide)

/-- C8: `getOptimizedRouteSuggestions` is total over API failure — whenever
the recommendations call rejects, it returns the fixed fallback object with
exactly one route (id "fallback-1", estimatedTime 25, safetyScore 85,
trafficLevel 1) and the Unknown/Unknown/0 current conditions, for every
start, end, preference set and random stream. -/
theorem getOptimizedRouteSuggestions_fallback (startLocation endLocation : String)
    (preferences : List (String × String)) (msg : String) (rng : ℕ → ℚ) :
    getOptimizedRouteSuggestions startLocation endLocation preferences
        (.error msg) rng =
      { optimizedRoutes :=
          [{ id := "fallback-1", sname := "Fallback Route 1",
             description := "API error - using fallback route",
             estimatedTime := 25, safetyScore := 85, trafficLevel := 1 }],
        currentConditions := { weather := "Unknown", trafficStatus := "Unknown",
                               safetyAlerts := 0 } } := by
  rfl

theorem floor_mul_bounds (x : ℚ) (n : ℕ) (hn : 0 < n) (hx0 : 0 ≤ x) (hx1 : x < 1) :
    0 ≤ ⌊x * (n : ℚ)⌋ ∧ ⌊x * (n : ℚ)⌋ < (n : ℤ) := by
  constructor
  · exact Int.floor_nonneg.2 (mul_nonneg hx0 (by positivity))
  · apply Int.floor_lt.2
    push_cast
    calc x * (n : ℚ) < 1 * (n : ℚ) := by
          apply mul_lt_mul_of_pos_right hx1
          exact_mod_cast hn
      _ = (n : ℚ) := one_mul _

/-- C9: every route returned by `getSafetyFocusedRoutes` has an integer
safetyScore in [70, 99] and estimatedTime in [25, 44] — in the success path
they are floor(r*30)+70 and floor(r*20)+25 for random draws r in [0,1), and
in the API-error path the constants 80 and 30. -/
theorem getSafetyFocusedRoutes_bounds (startLocation endLocation : String)
    (recsResult : Except String (List Recommendation)) (rng : ℕ → ℚ)
    (h : ∀ n : ℕ, 0 ≤ rng n ∧ rng n < 1) :
    (∀ r ∈ getSafetyFocusedRoutes startLocation endLocation recsResult rng,
      70 ≤ r.safetyScore ∧ r.safetyScore ≤ 99 ∧
      25 ≤ r.estimatedTime ∧ r.estimatedTime ≤ 44) ∧
    (∀ msg : String, recsResult = .error msg →
      getSafetyFocusedRoutes startLocation endLocation recsResult rng =
        [{ id := "safety-fallback", sname := "Safety Fallback Route",
           description := "API error - using fallback safety route",
           safetyScore := 80, estimatedTime := 30 }]) := by
  constructor
  · intro r hr
    match hres : recsResult with
    | .error msg =>
        simp only [getSafetyFocusedRoutes, List.mem_singleton] at hr
        subst hr
        norm_num
    | .ok recs =>
        simp only [getSafetyFocusedRoutes, List.mem_map] at hr
        obtain ⟨p, _, hp⟩ := hr
        subst hp
        have hs := floor_mul_bounds (rng (2 * p.1)) 30 (by norm_num)
          (h (2 * p.1)).1 (h (2 * p.1)).2
        have he := floor_mul_bounds (rng (2 * p.1 + 1)) 20 (by norm_num)
          (h (2 * p.1 + 1)).1 (h (2 * p.1 + 1)).2
        rw [rat_floor_eq_intFloor, rat_floor_eq_intFloor]
        norm_num at hs he
        dsimp only
        omega
  · intro msg hres
    subst hres
    rfl

/-- C9 witness: with the constant one-half stream and one recommendation the
produced route's fields lie in the claimed ranges. -/
theorem getSafetyFocusedRoutes_bounds_witness :
    ∃ r, r ∈ getSafetyFocusedRoutes "a" "b" (.ok [recFast]) halfStream ∧
      70 ≤ r.safetyScore ∧ r.safetyScore ≤ 99 ∧
      25 ≤ r.estimatedTime ∧ r.estimatedTime ≤ 44 := by
  obtain ⟨r, hr⟩ : ∃ r, r ∈ getSafetyFocusedRoutes "a" "b" (.ok [recFast]) halfStream := by
    simp [getSafetyFocusedRoutes]
  exact ⟨r, hr, (getSafetyFocusedRoutes_bounds "a" "b" (.ok [recFast]) halfStream
    (fun n => by norm_num [halfStream])).1 r hr⟩

/-- C10: `markAsRead` sets `read := true` on exactly the alerts whose id
matches and changes nothing else — the list keeps its length and order, every
non-matching alert object is returned unchanged, and every other field of a
matching alert keeps its value. -/
theorem markAsRead_frame (i : ℕ) (alerts : List Alert) :
    (markAsRead i alerts).length = alerts.length ∧
    List.Forall₂ (fun a b : Alert =>
      b.id = a.id ∧ b.atype = a.atype ∧ b.title = a.title ∧
      b.description = a.description ∧ b.severity = a.severity ∧
      b.timestamp = a.timestamp ∧ b.location = a.location ∧
      b.read = (if a.id = i then true else a.read) ∧
      (a.id ≠ i → b = a)) alerts (markAsRead i alerts) := by
  constructor
  · simp [markAsRead]
  · induction alerts with
    | nil => simp [markAsRead]
    | cons a rest ih =>
        simp only [markAsRead, List.map_cons]
        refine List.Forall₂.cons ?_ ?_
        · by_cases hid : a.id = i <;> simp [hid]
        · simpa [markAsRead] using ih

/-- A concrete tracked route for exercising RouteMonitor. -/
def rW : Route :=
  { rid := 0, journey := 0, path := [{ lat := 0, lng := 0 }], totalDistance := 0,
    safetyScore := 100, status := .active, supersedes := none }

/-- A concrete monitor state tracking one active route. -/
def stW : MonitorState :=
  { routes := [rW], nextId := 1 }

/-- A concrete high-severity threat far away from `rW`. -/
def thFar : ThreatReport :=
  { tid := 1, pos := { lat := 10, lng := 10 }, severity := .high }

/-- A replan stub returning the route's own path and score. -/
def replanId : Route → List Coordinate × ℚ × ℚ :=
  fun r => (r.path, r.totalDistance, r.safetyScore)

/-- C6: a threat farther than the safety margin from every point of every
active route's path marks nothing dirty, leaves the monitor state untouched
(so no recomputation happens and no active route is superseded), and a route
can only ever be marked dirty when it is active, the threat's severity is at
least medium, and the threat is within the margin of its path. -/
theorem processThreat_far_noop (d : Coordinate → Coordinate → ℚ)
    (margin delta : ℚ) (replan : Route → List Coordinate × ℚ × ℚ)
    (st : MonitorState) (th : ThreatReport)
    (hfar : ∀ r ∈ st.routes, r.status = RStatus.active →
      ∀ p ∈ r.path, margin < d th.pos p) :
    dirtyRoutes d margin st th = [] ∧
    processThreat d margin delta replan st th = st ∧
    (∀ r : Route, routeDirty d margin th r = true →
      r.status = RStatus.active ∧ sevAtLeast th.severity .medium = true ∧
      nearPath d margin th.pos r.path = true) := by
  have hfilter : st.routes.filter (routeDirty d margin th) = [] := by
    rw [List.filter_eq_nil_iff]
    intro r hr hdirty
    simp only [routeDirty, Bool.and_eq_true, beq_iff_eq] at hdirty
    obtain ⟨⟨hact, _⟩, hnear⟩ := hdirty
    simp only [nearPath, List.any_eq_true, decide_eq_true_eq] at hnear
    obtain ⟨p, hp, hle⟩ := hnear
    have := hfar r hr hact p hp
    linarith
  refine ⟨?_, ?_, ?_⟩
  · simp [dirtyRoutes, hfilter]
  · simp [processThreat, hfilter]
  · intro r hdirty
    simp only [routeDirty, Bool.and_eq_true, beq_iff_eq] at hdirty
    exact ⟨hdirty.1.1, hdirty.1.2, hdirty.2⟩

/-- C6 witness: a concrete far high-severity threat leaves the concrete
monitor state unchanged and marks nothing dirty. -/
theorem processThreat_far_noop_witness :
    dirtyRoutes taxicab 1 stW thFar = [] ∧
    processThreat taxicab 1 5 replanId stW thFar = stW := by
  have hfar : ∀ r ∈ stW.routes, r.status = RStatus.active →
      ∀ p ∈ r.path, (1 : ℚ) < taxicab thFar.pos p := by
    intro r hr hact p hp
    simp only [stW, rW, List.mem_singleton] at hr
    subst hr
    simp only [rW, List.mem_singleton] at hp
    subst hp
    norm_num [taxicab, thFar, abs_of_nonneg]
  have H := processThreat_far_noop taxicab 1 5 replanId stW thFar hfar
  exact ⟨H.1, H.2.1⟩

theorem filter_subsingleton {α : Type} {p : α → Bool} {l : List α}
    (h : (l.filter p).length ≤ 1) {a b : α} (ha : a ∈ l) (hpa : p a = true)
    (hb : b ∈ l) (hpb : p b = true) : a = b := by
  have ha2 : a ∈ l.filter p := List.mem_filter.2 ⟨ha, hpa⟩
  have hb2 : b ∈ l.filter p := List.mem_filter.2 ⟨hb, hpb⟩
  cases hl : l.filter p with
  | nil =>
      rw [hl] at ha2
      simp at ha2
  | cons x xs =>
      cases xs with
      | nil =>
          rw [hl] at ha2 hb2
          simp only [List.mem_singleton] at ha2 hb2
          rw [ha2, hb2]
      | cons y t =>
          rw [hl] at h
          simp at h

theorem status_map_pointwise (i j : ℕ) (s : RStatus) (hs : s ≠ RStatus.active)
    (r : Route) :
    (((if r.rid == i && r.status == RStatus.active then setStatus s r else r).journey == j) &&
      ((if r.rid == i && r.status == RStatus.active then setStatus s r else r).status == RStatus.active))
    = (r.journey == j && (r.status == RStatus.active && !(r.rid == i))) := by
  have hsb : (s == RStatus.active) = false := beq_eq_false_iff_ne.2 hs
  by_cases h1 : (r.rid == i) = true <;> by_cases h2 : (r.status == RStatus.active) = true <;>
    simp [setStatus, h1, h2, hsb]

theorem countP_map_status (i j : ℕ) (s : RStatus) (hs : s ≠ RStatus.active)
    (l : List Route) :
    ((l.map (fun r => if r.rid == i && r.status == RStatus.active then setStatus s r else r)).countP
        (fun r => r.journey == j && r.status == RStatus.active))
      = l.countP (fun r => r.journey == j && (r.status == RStatus.active && !(r.rid == i))) := by
  rw [List.countP_map]
  apply List.countP_congr
  intro r _
  have := status_map_pointwise i j s hs r
  constructor
  · intro hx
    rw [← this]
    exact hx
  · intro hx
    rw [Function.comp_apply, this]
    exact hx

/-- C5: every RouteMonitor transition preserves the lifecycle invariant —
if at most one active route exists per journey, the same holds after any
event, and a route whose status is superseded, completed or cancelled is
still present, unchanged, after the event (terminal states have no outgoing
transitions and terminal routes are never mutated). -/
theorem step_preserves_lifecycle (st : MonitorState) (e : MEvent)
    (hinv : ∀ j : ℕ, activeCount st j ≤ 1) :
    (∀ j : ℕ, activeCount (step st e) j ≤ 1) ∧
    (∀ r ∈ st.routes, r.status ≠ RStatus.active → r ∈ (step st e).routes) := by
  constructor
  · intro j
    cases e with
    | register j' p dist sc =>
        simp only [step]
        by_cases hA : hasActiveJourney st j' = true
        · rw [if_pos hA]
          exact hinv j
        · rw [if_neg hA]
          simp only [activeCount, List.filter_append, List.length_append]
          by_cases hj : (j' == j) = true
          · have h0 : st.routes.filter
                (fun r => r.journey == j && r.status == RStatus.active) = [] := by
              rw [List.filter_eq_nil_iff]
              intro r hr hp
              apply hA
              simp only [hasActiveJourney, List.any_eq_true]
              refine ⟨r, hr, ?_⟩
              simp only [Bool.and_eq_true, beq_iff_eq] at hp ⊢
              exact ⟨by rw [hp.1]; exact (beq_iff_eq.1 hj).symm ▸ rfl, hp.2⟩
            rw [h0]
            simp [hj]
          · have h1 : (List.filter
                (fun r : Route => r.journey == j && r.status == RStatus.active)
                [{ rid := st.nextId, journey := j', path := p, totalDistance := dist,
                   safetyScore := sc, status := RStatus.active,
                   supersedes := none }]).length = 0 := by
              simp [Bool.eq_false_iff.2 (fun hx => hj hx)]
            rw [h1]
            have := hinv j
            simp only [activeCount] at this
            omega
    | replanSucceeded i p dist sc =>
        simp only [step]
        cases hfind : findActive st i with
        | none =>
            simp only [hfind]
            exact hinv j
        | some old =>
            simp only [hfind]
            simp only [activeCount, List.filter_append, List.length_append]
            have hmap : (List.filter (fun r => r.journey == j && r.status == RStatus.active)
                (st.routes.map (fun r =>
                  if r.rid == i && r.status == RStatus.active then setStatus .superseded r
                  else r))).length
                = st.routes.countP
                    (fun r => r.journey == j && (r.status == RStatus.active && !(r.rid == i))) := by
              rw [← List.countP_eq_length_filter]
              exact countP_map_status i j .superseded (by simp) st.routes
            rw [hmap]
            have hfind2 : st.routes.find?
                (fun r => r.rid == i && r.status == RStatus.active) = some old := hfind
            have hold_mem : old ∈ st.routes := List.mem_of_find?_eq_some hfind2
            have hold_p := List.find?_some hfind2
            simp only [Bool.and_eq_true, beq_iff_eq] at hold_p
            by_cases hj : (old.journey == j) = true
            · have hcount0 : st.routes.countP
                  (fun r => r.journey == j && (r.status == RStatus.active && !(r.rid == i))) = 0 := by
                rw [List.countP_eq_zero]
                intro r hr hq
                simp only [Bool.and_eq_true, beq_iff_eq, Bool.not_eq_true',
                  beq_eq_false_iff_ne] at hq
                have hreq : r = old := by
                  apply filter_subsingleton (hinv j) hr ?_ hold_mem ?_
                  · simp only [Bool.and_eq_true, beq_iff_eq]
                    exact ⟨hq.1, hq.2.1⟩
                  · simp only [Bool.and_eq_true, beq_iff_eq]
                    exact ⟨beq_iff_eq.1 hj, hold_p.2⟩
                apply hq.2.2
                rw [hreq, hold_p.1]
              rw [hcount0]
              simp only [Nat.zero_add]
              apply le_trans (List.length_filter_le _ _)
              simp
            · have h1 : (List.filter
                  (fun r : Route => r.journey == j && r.status == RStatus.active)
                  [{ rid := st.nextId, journey := old.journey, path := p,
                     totalDistance := dist, safetyScore := sc,
                     status := RStatus.active, supersedes := some i }]).length = 0 := by
                simp [Bool.eq_false_iff.2 (fun hx => hj hx)]
              rw [h1]
              have hle : st.routes.countP
                  (fun r => r.journey == j && (r.status == RStatus.active && !(r.rid == i)))
                  ≤ st.routes.countP (fun r => r.journey == j && r.status == RStatus.active) := by
                apply List.countP_mono_left
                intro r _ hq
                simp only [Bool.and_eq_true] at hq ⊢
                exact ⟨hq.1, hq.2.1⟩
              have := hinv j
              simp only [activeCount, ← List.countP_eq_length_filter] at this
              omega
    | complete i =>
        simp only [step, activeCount]
        rw [← List.countP_eq_length_filter, countP_map_status i j .completed (by simp)]
        have := hinv j
        simp only [activeCount, ← List.countP_eq_length_filter] at this
        have hle : st.routes.countP
            (fun r => r.journey == j && (r.status == RStatus.active && !(r.rid == i)))
            ≤ st.routes.countP (fun r => r.journey == j && r.status == RStatus.active) := by
          apply List.countP_mono_left
          intro r _ hq
          simp only [Bool.and_eq_true] at hq ⊢
          exact ⟨hq.1, hq.2.1⟩
        omega
    | cancel i =>
        simp only [step, activeCount]
        rw [← List.countP_eq_length_filter, countP_map_status i j .cancelled (by simp)]
        have := hinv j
        simp only [activeCount, ← List.countP_eq_length_filter] at this
        have hle : st.routes.countP
            (fun r => r.journey == j && (r.status == RStatus.active && !(r.rid == i)))
            ≤ st.routes.countP (fun r => r.journey == j && r.status == RStatus.active) := by
          apply List.countP_mono_left
          intro r _ hq
          simp only [Bool.and_eq_true] at hq ⊢
          exact ⟨hq.1, hq.2.1⟩
        omega
  · intro r hr hrs
    have hstatus : (r.status == RStatus.active) = false := beq_eq_false_iff_ne.2 hrs
    have hfix : ∀ (s : RStatus) (i : ℕ),
        (if r.rid == i && r.status == RStatus.active then setStatus s r else r) = r := by
      intro s i
      simp [hstatus]
    cases e with
    | register j' p dist sc =>
        simp only [step]
        by_cases hA : hasActiveJourney st j' = true
        · rw [if_pos hA]
          exact hr
        · rw [if_neg hA]
          exact List.mem_append_left _ hr
    | replanSucceeded i p dist sc =>
        cases hfind : findActive st i with
        | none =>
            simp only [step, hfind]
            exact hr
        | some old =>
            simp only [step, hfind]
            apply List.mem_append_left
            exact List.mem_map.2 ⟨r, hr, hfix .superseded i⟩
    | complete i =>
        simp only [step]
        exact List.mem_map.2 ⟨r, hr, hfix .completed i⟩
    | cancel i =>
        simp only [step]
        exact List.mem_map.2 ⟨r, hr, hfix .cancelled i⟩

/-- A concrete superseded route record. -/
def rSup : Route :=
  { rid := 5, journey := 1, path := [], totalDistance := 0, safetyScore := 50,
    status := .superseded, supersedes := none }

/-- A concrete monitor state with one active and one superseded route. -/
def stW2 : MonitorState :=
  { routes := [rW, rSup], nextId := 6 }

/-- C5 witness: completing the concrete active route keeps at most one
active route per journey and leaves the superseded record untouched. -/
theorem step_preserves_lifecycle_witness :
    activeCount (ARNav.step stW2 (.complete 0)) 0 ≤ 1 ∧
    rSup ∈ (ARNav.step stW2 (.complete 0)).routes := by
  have hinv : ∀ j : ℕ, activeCount stW2 j ≤ 1 := by
    intro j
    by_cases hj : ((0 : ℕ) == j) = true <;>
      simp [activeCount, stW2, rW, rSup, hj]
  have H := step_preserves_lifecycle stW2 (.complete 0) hinv
  refine ⟨H.1 0, H.2 rSup ?_ ?_⟩
  · simp [stW2]
  · simp [rSup]

end ARNav
